import Mathlib

/-!
Verification of the y-cruncher GUI test-execution controller.

Shallow embedding of the Python sources:
  - `src/core/controller.py`   (ProcessController)
  - `src/ui/frames/configuration.py` (ConfigurationFrame.validate and helpers)
  - `src/config/settings.py`   (TEST_CONFIG constants)

Pure functions become Lean functions; the OS interaction of `start_test`,
`stop_test` and `_wait_for_completion` is modelled by passing the outcome of
each external call (executable lookup, spawn, signal delivery, wait) as an
explicit environment value, and the controller's mutable fields
(`process`, `pid`, `is_running`) as an explicit state record.
-/

namespace YCruncherGUI

/-! ## Python string primitives (ASCII fragment used by the sources) -/

/-- Python whitespace characters recognised by str.strip / str.rstrip
(ASCII: space, tab, newline, carriage return, vertical tab, form feed). -/
def isPyWhitespaceChar (c : Char) : Bool :=
  c = ' ' || c = '\t' || c = '\n' || c = '\r' || c = '\x0b' || c = '\x0c'

/-- ASCII lower-casing of one character, as Python str.lower does on
the ASCII range (the sources only compare against the ASCII word "auto"). -/
def pyLowerChar (c : Char) : Char :=
  if 65 ≤ c.toNat ∧ c.toNat ≤ 90 then Char.ofNat (c.toNat + 32) else c

/-- Python str.lower (ASCII fragment). -/
def pyLower (s : String) : String :=
  ⟨s.data.map pyLowerChar⟩

/-- Drop the trailing run of Python whitespace from a character list. -/
def rstripL (l : List Char) : List Char :=
  (l.reverse.dropWhile isPyWhitespaceChar).reverse

/-- Python str.rstrip() with no argument: remove all trailing whitespace. -/
def pyRstrip (s : String) : String :=
  ⟨rstripL s.data⟩

/-- Python str.strip(): remove leading and trailing whitespace. -/
def pyStrip (s : String) : String :=
  ⟨rstripL (s.data.dropWhile isPyWhitespaceChar)⟩

/-- A character in the ASCII digit range, as used by Python str.isdigit
on the ASCII inputs occurring here. -/
def isDigitChar (c : Char) : Bool :=
  decide (48 ≤ c.toNat) && decide (c.toNat ≤ 57)

/-- Python str.isdigit: nonempty and every character a digit. -/
def pyIsdigit (s : String) : Bool :=
  !s.data.isEmpty && s.data.all isDigitChar

/-- Numeric value of a digit string (most significant digit first). -/
def natOfDigits (l : List Char) : Nat :=
  l.foldl (fun a c => 10 * a + (c.toNat - 48)) 0

/-- Python int() on an entry-field string: an optional sign followed by a
nonempty digit run; anything else raises ValueError (modelled as error).
The call sites in this codebase pass already-stripped strings, so the
leading/trailing-whitespace tolerance of int() is not exercised. -/
def pyInt (s : String) : Except String Int :=
  if pyIsdigit s then Except.ok ((natOfDigits s.data : Nat) : Int)
  else
    match s.data with
    | '+' :: rest =>
        if !rest.isEmpty && rest.all isDigitChar then
          Except.ok ((natOfDigits rest : Nat) : Int)
        else Except.error ("invalid literal for int: " ++ s)
    | '-' :: rest =>
        if !rest.isEmpty && rest.all isDigitChar then
          Except.ok (-((natOfDigits rest : Nat) : Int))
        else Except.error ("invalid literal for int: " ++ s)
    | _ => Except.error ("invalid literal for int: " ++ s)

/-! ## Configuration constants (src/config/settings.py, TEST_CONFIG) -/

/-- TEST_CONFIG auto_time_limit_per_test. -/
def auto_time_limit_per_test : Nat := 1800

/-- TEST_CONFIG default_per_test_duration. -/
def default_per_test_duration : Nat := 120

/-! ## Data model (src/core/models.py) -/

/-- TestConfig: the three entry-field strings, each either the sentinel
"auto" (case-insensitive), empty, or an explicit value. -/
structure TestConfig where
  time_limit : String
  duration_per_test : String
  memory : String
deriving DecidableEq, Repr

/-! ## Command construction (ProcessController._build_command) -/

/-- ProcessController._build_command, translated statement by statement:
start from the fixed tokens, conditionally append -M, then -D (explicit or
default), then -TL (explicit or auto budget times unit count), then the
selected component tags in order. -/
def build_command (config : TestConfig) (enabled_components : List String) :
    List String :=
  let cmd := ["y-cruncher.exe", "colors:1", "console:linux-vterm", "stress"]
  let cmd :=
    if pyStrip config.memory ≠ "" ∧ pyLower config.memory ≠ "auto" then
      cmd ++ ["-M:" ++ config.memory]
    else cmd
  let cmd :=
    if config.duration_per_test ≠ "" ∧ pyLower config.duration_per_test ≠ "auto" then
      cmd ++ ["-D:" ++ config.duration_per_test]
    else cmd ++ ["-D:" ++ toString default_per_test_duration]
  let cmd :=
    if config.time_limit ≠ "" ∧ pyLower config.time_limit ≠ "auto" then
      cmd ++ ["-TL:" ++ config.time_limit]
    else
      cmd ++ ["-TL:" ++ toString (auto_time_limit_per_test * enabled_components.length)]
  cmd ++ enabled_components

/-- Resolved -D value as a string: the explicit field if nonempty and not
"auto", otherwise the configured default. -/
def resolveDurationStr (d : String) : String :=
  if d ≠ "" ∧ pyLower d ≠ "auto" then d else toString default_per_test_duration

/-- Resolved -TL value as a string: the explicit field if nonempty and not
"auto", otherwise the per-unit auto budget times the unit count. -/
def resolveTimeLimitStr (tl : String) (unit_count : Nat) : String :=
  if tl ≠ "" ∧ pyLower tl ≠ "auto" then tl
  else toString (auto_time_limit_per_test * unit_count)

/-- The command line as the specification describes it: fixed program and
mode/display tokens, an optional -M flag, the resolved -D and -TL flags,
then the selected unit identifiers as bare tokens in selection order. -/
def commandSpec (config : TestConfig) (units : List String) : List String :=
  ["y-cruncher.exe", "colors:1", "console:linux-vterm", "stress"]
    ++ (if pyStrip config.memory ≠ "" ∧ pyLower config.memory ≠ "auto" then
          ["-M:" ++ config.memory]
        else [])
    ++ ["-D:" ++ resolveDurationStr config.duration_per_test]
    ++ ["-TL:" ++ resolveTimeLimitStr config.time_limit units.length]
    ++ units

/-! ## Controller state (ProcessController.__init__, _cleanup) -/

/-- The controller's three mutable slots, treated as one unit: the Popen
handle (modelled by the spawned pid it wraps), the tracked pid, and the
running flag. -/
structure ControllerState where
  process : Option Nat
  pid : Option Nat
  is_running : Bool
deriving DecidableEq, Repr

/-- ProcessController.__init__: process = None, pid = None, is_running = False. -/
def initialState : ControllerState :=
  { process := none, pid := none, is_running := false }

/-- ProcessController._cleanup: is_running = False, process = None, pid = None. -/
def cleanup (_s : ControllerState) : ControllerState :=
  { process := none, pid := none, is_running := false }

/-! ## start_test (ProcessController.start_test) -/

/-- Outcome of the subprocess.Popen call, supplied by the environment:
success with the new pid, FileNotFoundError, or any other exception. -/
inductive SpawnResult where
  | ok (pid : Nat)
  | fileNotFound
  | err (msg : String)
deriving DecidableEq, Repr

/-- Environment of one start_test invocation: what check_ycruncher_present
would report, and what subprocess.Popen would do. -/
structure StartEnv where
  ycruncher_present : Bool
  spawn : SpawnResult
deriving DecidableEq, Repr

/-- Observable side effects of one start_test invocation: whether the
executable locator (check_ycruncher_present) was consulted, and whether a
process spawn was attempted. -/
structure StartTrace where
  locator_consulted : Bool
  spawned : Bool
deriving DecidableEq, Repr

/-- ProcessController.start_test: reject while running, reject an empty
selection, then consult the locator, then spawn; on success store the
handle and pid and set the running flag. Returns the new state, the
(success, message) pair the Python method returns, and the side-effect
trace. -/
def start_test (s : ControllerState) (config : TestConfig)
    (enabled_components : List String) (env : StartEnv) :
    ControllerState × (Bool × String) × StartTrace :=
  if s.is_running then
    (s, (false, "Test is already running!"), ⟨false, false⟩)
  else if enabled_components.isEmpty then
    (s, (false, "Please select at least one component!"), ⟨false, false⟩)
  else if env.ycruncher_present = false then
    (s, (false, "y-cruncher.exe not found! Please download from https://www.numberworld.org/y-cruncher/"),
      ⟨true, false⟩)
  else
    let _cmd := build_command config enabled_components
    match env.spawn with
    | SpawnResult.ok p =>
        ({ process := some p, pid := some p, is_running := true },
          (true, "Test started successfully"), ⟨true, true⟩)
    | SpawnResult.fileNotFound =>
        (s, (false, "y-cruncher.exe not found!"), ⟨true, false⟩)
    | SpawnResult.err msg =>
        (s, (false, "Failed to start: " ++ msg), ⟨true, false⟩)

/-! ## stop_test (ProcessController.stop_test) -/

/-- Environment of one stop_test invocation, covering the four paths the
Python method can take after its not-running guard: psutil.pid_exists is
false; _terminate_process_tree returns normally; psutil.NoSuchProcess
escapes; some other exception escapes. -/
inductive StopEnv where
  | pid_vanished
  | term_ok
  | term_no_such_process
  | term_error (msg : String)
deriving DecidableEq, Repr

/-- ProcessController.stop_test: guard on (is_running, process); on the
vanished-pid, normal-termination and NoSuchProcess paths run _cleanup and
succeed; on any other exception return the error with no cleanup. -/
def stop_test (s : ControllerState) (env : StopEnv) :
    ControllerState × (Bool × String) :=
  if s.is_running = false ∨ s.process = none then
    (s, (false, "No test is running!"))
  else
    match env with
    | StopEnv.pid_vanished => (cleanup s, (true, "Process already terminated"))
    | StopEnv.term_ok => (cleanup s, (true, "Test stopped by user"))
    | StopEnv.term_no_such_process => (cleanup s, (true, "Process already terminated"))
    | StopEnv.term_error msg => (s, (false, "Error stopping test: " ++ msg))

/-! ## Completion waiter (ProcessController._wait_for_completion) -/

/-- ProcessController._wait_for_completion: the wait result is either an
exit code or an exception (swallowed). A non-zero exit code emits one
diagnostic line; the finally block always emits the completed notice and
runs _cleanup. Returns the new state and the output-callback lines in
emission order. -/
def wait_for_completion (s : ControllerState) (wait_result : Except String Int) :
    ControllerState × List String :=
  match wait_result with
  | Except.ok return_code =>
      let outputs :=
        if return_code ≠ 0 then
          ["\n> Process exited with code: " ++ toString return_code ++ "\n"]
        else []
      (cleanup s, outputs ++ ["\n> Test completed or stopped.\n"])
  | Except.error _ =>
      (cleanup s, ["\n> Test completed or stopped.\n"])

/-! ## Reachable controller states -/

/-- States reachable from the freshly constructed controller by any
sequence of start_test, stop_test and _wait_for_completion operations,
under arbitrary environments. -/
inductive Reachable : ControllerState → Prop where
  | init : Reachable initialState
  | step_start (s : ControllerState) (config : TestConfig)
      (units : List String) (env : StartEnv) :
      Reachable s → Reachable (start_test s config units env).1
  | step_stop (s : ControllerState) (env : StopEnv) :
      Reachable s → Reachable (stop_test s env).1
  | step_wait (s : ControllerState) (w : Except String Int) :
      Reachable s → Reachable (wait_for_completion s w).1

/-! ## Stream monitor (ProcessController._monitor_output) -/

/-- ProcessController._monitor_output: iterate readline until the empty
sentinel, and for each truthy (nonempty) line invoke the callback with
line.rstrip(). The second argument records whether reading ended in a
pipe-closed/I/O-error condition instead of end-of-stream; the except
handler swallows it, so it contributes no output. Returns the callback
invocations in order. -/
def monitor_output (lines : List String) (_ended_by_io_error : Bool) :
    List String :=
  lines.filterMap fun line => if line ≠ "" then some (pyRstrip line) else none

/-- Modelled from the spec wording "with the trailing line terminator
stripped": remove exactly one trailing line terminator (LF, CRLF or CR)
and nothing else. -/
def stripLineTerminatorSpec (line : String) : String :=
  match line.data.reverse with
  | '\n' :: '\r' :: rest => ⟨rest.reverse⟩
  | '\n' :: rest => ⟨rest.reverse⟩
  | '\r' :: rest => ⟨rest.reverse⟩
  | _ => line

/-! ## Configuration frame (src/ui/frames/configuration.py) -/

/-- ConfigurationFrame._update_auto_values: when the time-limit field is
not manual and at least one unit is enabled, overwrite the entry with the
auto budget times the enabled count; otherwise leave the entry unchanged. -/
def update_auto_values (time_limit_manual : Bool) (enabled_count : Nat)
    (tl_entry : String) : String :=
  if time_limit_manual = false ∧ 0 < enabled_count then
    toString (auto_time_limit_per_test * enabled_count)
  else tl_entry

/-- ConfigurationFrame._get_per_test_value: strip the duration entry; the
sentinel "auto" resolves to the configured default, anything else goes
through int() — which raises on an empty string. -/
def get_per_test_value (d_entry : String) : Except String Int :=
  let per_test_str := pyStrip d_entry
  if pyLower per_test_str = "auto" then
    Except.ok ((default_per_test_duration : Nat) : Int)
  else pyInt per_test_str

/-- A single ASCII apostrophe, used in the validation messages. -/
def sq : String := ⟨[Char.ofNat 39]⟩

/-- The too-low validation message of ConfigurationFrame.validate,
reporting the supplied time limit and the computed minimum. -/
def tooLowMsg (time_limit min_required per_test : Int) (enabled_count : Nat) :
    String :=
  "Time limit (" ++ toString time_limit ++ " sec) is too low! Minimum required: "
    ++ toString min_required ++ " sec (" ++ toString per_test ++ " sec × "
    ++ toString enabled_count ++ " tests)"

/-- ConfigurationFrame.validate, with get_config inlined (it strips the
two entry strings): reject a nonempty non-"auto" non-digit field; then,
for a digit time limit with at least one enabled unit, compare against
per-test × enabled_count. A ValueError escaping from int() is the error
case of the Except. -/
def validate (tl_raw d_raw : String) (enabled_count : Nat) :
    Except String (Bool × String) :=
  let time_limit := pyStrip tl_raw
  let duration := pyStrip d_raw
  if time_limit ≠ "" ∧ pyLower time_limit ≠ "auto" ∧ pyIsdigit time_limit = false then
    Except.ok (false, "Time limit must be a number or " ++ sq ++ "Auto" ++ sq ++ "!")
  else if duration ≠ "" ∧ pyLower duration ≠ "auto" ∧ pyIsdigit duration = false then
    Except.ok (false, "Duration per test must be a number or " ++ sq ++ "Auto" ++ sq ++ "!")
  else if time_limit ≠ "" ∧ pyIsdigit time_limit = true ∧ 0 < enabled_count then
    match pyInt time_limit with
    | Except.error e => Except.error e
    | Except.ok t =>
        match get_per_test_value d_raw with
        | Except.error e => Except.error e
        | Except.ok per_test =>
            let min_required := per_test * (enabled_count : Int)
            if t < min_required then
              Except.ok (false, tooLowMsg t min_required per_test enabled_count)
            else Except.ok (true, "Configuration valid")
  else Except.ok (true, "Configuration valid")

/-! ## Helper lemmas -/

theorem dropWhile_eq_self_of_none {p : Char → Bool} :
    ∀ l : List Char, (∀ c ∈ l, p c = false) → l.dropWhile p = l := by
  intro l h
  cases l with
  | nil => rfl
  | cons c t =>
      have hc : p c = false := h c (List.mem_cons_self c t)
      simp [List.dropWhile_cons, hc]

theorem not_ws_of_digit (c : Char) (h : isDigitChar c = true) :
    isPyWhitespaceChar c = false := by
  simp only [isDigitChar, Bool.and_eq_true, decide_eq_true_eq] at h
  obtain ⟨h1, h2⟩ := h
  simp only [isPyWhitespaceChar, Bool.or_eq_false_iff, decide_eq_false_iff_not]
  refine ⟨⟨⟨⟨⟨?_, ?_⟩, ?_⟩, ?_⟩, ?_⟩, ?_⟩ <;>
    · intro hc
      subst hc
      revert h1 h2
      decide

theorem rstripL_eq_self_of_digits (l : List Char) (h : l.all isDigitChar = true) :
    rstripL l = l := by
  have hall : ∀ c ∈ l, isPyWhitespaceChar c = false := by
    intro c hc
    exact not_ws_of_digit c (by simpa using List.all_eq_true.mp h c hc)
  unfold rstripL
  rw [dropWhile_eq_self_of_none l.reverse
    (fun c hc => hall c (List.mem_reverse.mp hc))]
  exact List.reverse_reverse l

theorem pyStrip_eq_self_of_digits (s : String) (h : pyIsdigit s = true) :
    pyStrip s = s := by
  cases s with
  | mk l =>
      simp only [pyIsdigit, Bool.and_eq_true] at h
      have hall : ∀ c ∈ l, isPyWhitespaceChar c = false := by
        intro c hc
        exact not_ws_of_digit c (by simpa using List.all_eq_true.mp h.2 c hc)
      show String.mk (rstripL (l.dropWhile isPyWhitespaceChar)) = String.mk l
      rw [dropWhile_eq_self_of_none l hall, rstripL_eq_self_of_digits l h.2]

theorem pyLowerChar_digit (c : Char) (h : isDigitChar c = true) :
    pyLowerChar c = c := by
  simp only [isDigitChar, Bool.and_eq_true, decide_eq_true_eq] at h
  unfold pyLowerChar
  rw [if_neg]
  omega

theorem map_pyLowerChar_of_digits :
    ∀ l : List Char, (∀ c ∈ l, isDigitChar c = true) → l.map pyLowerChar = l := by
  intro l h
  induction l with
  | nil => rfl
  | cons c t ih =>
      simp only [List.map_cons, List.cons.injEq]
      exact ⟨pyLowerChar_digit c (h c (List.mem_cons_self c t)),
        ih fun x hx => h x (List.mem_cons_of_mem c hx)⟩

theorem pyLower_eq_self_of_digits (s : String) (h : pyIsdigit s = true) :
    pyLower s = s := by
  cases s with
  | mk l =>
      simp only [pyIsdigit, Bool.and_eq_true] at h
      show String.mk (l.map pyLowerChar) = String.mk l
      congr 1
      exact map_pyLowerChar_of_digits l fun c hc => by
        simpa using List.all_eq_true.mp h.2 c hc

theorem ne_empty_of_isdigit (s : String) (h : pyIsdigit s = true) : s ≠ "" := by
  intro he
  subst he
  simp [pyIsdigit] at h

theorem ne_auto_of_isdigit (s : String) (h : pyIsdigit s = true) : s ≠ "auto" := by
  intro he
  subst he
  simp [pyIsdigit, isDigitChar] at h

theorem pyInt_of_digits (s : String) (h : pyIsdigit s = true) :
    pyInt s = Except.ok ((natOfDigits s.data : Nat) : Int) := by
  simp [pyInt, h]

theorem build_command_eq_commandSpec (config : TestConfig) (units : List String) :
    build_command config units = commandSpec config units := by
  unfold build_command commandSpec resolveDurationStr resolveTimeLimitStr
  by_cases hm : pyStrip config.memory ≠ "" ∧ pyLower config.memory ≠ "auto" <;>
    by_cases hd : config.duration_per_test ≠ "" ∧ pyLower config.duration_per_test ≠ "auto" <;>
      by_cases ht : config.time_limit ≠ "" ∧ pyLower config.time_limit ≠ "auto" <;>
        simp [hm, hd, ht]

/-! ## Claim theorems -/

/-- C3: build_command returns exactly the fixed program token and fixed
mode/display flags, then -M:<memory> iff the memory field is nonblank and
not "auto" (case-insensitive), then -D:<seconds> from the resolved
duration, then -TL:<seconds> from the resolved time limit, then the
selected unit identifiers as bare tokens in selection order; with all
fields "auto" and selection [BKT, BBP] this is -D:120 -TL:3600 BKT BBP. -/
theorem build_command_shape :
    (∀ (config : TestConfig) (units : List String),
        build_command config units = commandSpec config units)
  ∧ build_command ⟨"auto", "auto", "auto"⟩ ["BKT", "BBP"] =
      ["y-cruncher.exe", "colors:1", "console:linux-vterm", "stress",
        "-D:120", "-TL:3600", "BKT", "BBP"] :=
  ⟨build_command_eq_commandSpec, by decide⟩

/-- C1 counterexample: with an explicit per-unit duration of 50 and two
selected units, the auto-resolved time limit is 1800 × 2 = 3600, not
50 × 2 = 100 as the claim states. -/
theorem auto_time_limit_ignores_duration :
    build_command ⟨"auto", "50", "auto"⟩ ["BKT", "BBP"] =
      ["y-cruncher.exe", "colors:1", "console:linux-vterm", "stress",
        "-D:50", "-TL:3600", "BKT", "BBP"]
  ∧ ("-TL:3600" : String) ≠ "-TL:" ++ toString (50 * 2) := by decide

/-- C1 amended: for every unit count n ≥ 1, when the time-limit field is
empty or the sentinel "auto" (case-insensitive), the resolved -TL flag is
the per-unit auto budget (1800) times n, regardless of the per-unit
duration field; and the configuration frame's auto-fill writes the same
value into the entry. -/
theorem auto_time_limit_scales_with_units (config : TestConfig)
    (units : List String) (entry : String) (hn : 1 ≤ units.length)
    (hauto : config.time_limit = "" ∨ pyLower config.time_limit = "auto") :
    ("-TL:" ++ toString (1800 * units.length)) ∈ build_command config units
  ∧ update_auto_values false units.length entry = toString (1800 * units.length) := by
  constructor
  · rw [build_command_eq_commandSpec]
    have htl : resolveTimeLimitStr config.time_limit units.length =
        toString (1800 * units.length) := by
      unfold resolveTimeLimitStr
      rw [if_neg]
      · rfl
      · rintro ⟨h1, h2⟩
        rcases hauto with h | h
        · exact h1 h
        · exact h2 h
    unfold commandSpec
    rw [htl]
    simp
  · unfold update_auto_values
    rw [if_pos ⟨rfl, by omega⟩]
    rfl

/-- C1 amended, witness at time_limit = "auto", duration = "50",
units = [BKT, BBP]. -/
theorem auto_time_limit_scales_with_units_witness :
    ("-TL:" ++ toString (1800 * (["BKT", "BBP"] : List String).length)) ∈
      build_command ⟨"auto", "50", "auto"⟩ ["BKT", "BBP"]
  ∧ update_auto_values false (["BKT", "BBP"] : List String).length "old" =
      toString (1800 * (["BKT", "BBP"] : List String).length) :=
  auto_time_limit_scales_with_units ⟨"auto", "50", "auto"⟩ ["BKT", "BBP"]
    "old" (by decide) (Or.inr (by decide))

/-- C5: calling start_test while the controller is running returns the
already-running failure, consults no locator, attempts no spawn, and
leaves the state unchanged. -/
theorem start_while_running_rejected (s : ControllerState) (config : TestConfig)
    (units : List String) (env : StartEnv) (h : s.is_running = true) :
    start_test s config units env =
      (s, (false, "Test is already running!"), ⟨false, false⟩) := by
  simp [start_test, h]

/-- C5 witness at a concrete running state. -/
theorem start_while_running_rejected_witness :
    start_test ⟨some 7, some 7, true⟩ ⟨"auto", "auto", "auto"⟩ ["BKT"]
        ⟨true, SpawnResult.ok 9⟩ =
      (⟨some 7, some 7, true⟩, (false, "Test is already running!"), ⟨false, false⟩) :=
  start_while_running_rejected ⟨some 7, some 7, true⟩ ⟨"auto", "auto", "auto"⟩
    ["BKT"] ⟨true, SpawnResult.ok 9⟩ rfl

/-- C6: calling start_test from an idle state with an empty selection
returns the no-selection failure with the locator never consulted
(locator_consulted = false in the trace), for every environment. -/
theorem start_empty_selection_rejected (s : ControllerState)
    (config : TestConfig) (env : StartEnv) (h : s.is_running = false) :
    start_test s config [] env =
      (s, (false, "Please select at least one component!"), ⟨false, false⟩) := by
  simp [start_test, h]

/-- C6 witness at the initial state. -/
theorem start_empty_selection_rejected_witness :
    start_test initialState ⟨"auto", "auto", "auto"⟩ []
        ⟨true, SpawnResult.ok 9⟩ =
      (initialState, (false, "Please select at least one component!"),
        ⟨false, false⟩) :=
  start_empty_selection_rejected initialState ⟨"auto", "auto", "auto"⟩
    ⟨true, SpawnResult.ok 9⟩ rfl

/-- C2 counterexample: a stop_test invocation that passes the not-running
guard but hits a generic exception during termination returns the error
with the state still running and the handle retained — cleanup did not
run on that path. -/
theorem stop_error_path_skips_cleanup :
    (stop_test ⟨some 7, some 7, true⟩ (StopEnv.term_error "boom")).2 ≠
      (false, "No test is running!")
  ∧ (stop_test ⟨some 7, some 7, true⟩ (StopEnv.term_error "boom")).1 =
      ⟨some 7, some 7, true⟩ := by decide

/-- C2 amended: every stop_test invocation that does not fail with
NotRunning and does not hit a generic exception during termination
(process already vanished, successful termination, or a NoSuchProcess
race) ends with the cleaned-up state: not running, process and pid
released. -/
theorem stop_cleanup_on_non_error_paths (s : ControllerState) (env : StopEnv)
    (hguard : ¬(s.is_running = false ∨ s.process = none))
    (herr : ∀ msg, env ≠ StopEnv.term_error msg) :
    (stop_test s env).1 = { process := none, pid := none, is_running := false } := by
  cases env with
  | pid_vanished => simp [stop_test, hguard, cleanup]
  | term_ok => simp [stop_test, hguard, cleanup]
  | term_no_such_process => simp [stop_test, hguard, cleanup]
  | term_error msg => exact absurd rfl (herr msg)

/-- C2 amended, witness on the vanished-process path. -/
theorem stop_cleanup_on_non_error_paths_witness :
    (stop_test ⟨some 7, some 7, true⟩ StopEnv.pid_vanished).1 =
      { process := none, pid := none, is_running := false } :=
  stop_cleanup_on_non_error_paths ⟨some 7, some 7, true⟩ StopEnv.pid_vanished
    (by decide) (fun _ h => StopEnv.noConfusion h)

/-- C8: when the worker exits with a non-zero code, the completion waiter
emits exactly one diagnostic line followed by the standard completed
notice, and the state transitions to idle with process and pid released. -/
theorem wait_nonzero_exit_diagnostic (s : ControllerState) (rc : Int)
    (h : rc ≠ 0) :
    wait_for_completion s (Except.ok rc) =
      ({ process := none, pid := none, is_running := false },
        ["\n> Process exited with code: " ++ toString rc ++ "\n",
          "\n> Test completed or stopped.\n"]) := by
  simp [wait_for_completion, cleanup, h]

/-- C8 witness at exit code 3 from a running state. -/
theorem wait_nonzero_exit_diagnostic_witness :
    wait_for_completion ⟨some 7, some 7, true⟩ (Except.ok 3) =
      ({ process := none, pid := none, is_running := false },
        ["\n> Process exited with code: " ++ toString (3 : Int) ++ "\n",
          "\n> Test completed or stopped.\n"]) :=
  wait_nonzero_exit_diagnostic ⟨some 7, some 7, true⟩ 3 (by decide)

/-- C10 (refuted, code bug): validate is not total — with a numeric time
limit, an empty duration field and one enabled unit it reaches int("")
inside _get_per_test_value and raises ValueError instead of returning a
(bool, message) pair. -/
theorem validate_raises_on_empty_duration :
    validate "100" "" 1 = Except.error ("invalid literal for int: ") := by rfl

/-- C4: for a digit-string time limit with value t, a per-unit duration
that is either a digit string with value d or the sentinel "auto"
(defaulting to 120), and at least one enabled unit, validate fails —
with a message reporting both the supplied value and the minimum —
exactly when t < d × n, and succeeds for every t ≥ d × n. -/
theorem validate_time_limit_threshold (ts ds : String) (n : Nat)
    (hn : 1 ≤ n) (hts : pyIsdigit ts = true) (hds : pyIsdigit ds = true) :
    (validate ts ds n =
      if (natOfDigits ts.data : Int) < (natOfDigits ds.data : Int) * (n : Int) then
        Except.ok (false, tooLowMsg (natOfDigits ts.data)
          ((natOfDigits ds.data : Int) * (n : Int)) (natOfDigits ds.data) n)
      else Except.ok (true, "Configuration valid"))
  ∧ (validate ts "auto" n =
      if (natOfDigits ts.data : Int) < ((120 : Nat) : Int) * (n : Int) then
        Except.ok (false, tooLowMsg (natOfDigits ts.data)
          (((120 : Nat) : Int) * (n : Int)) ((120 : Nat) : Int) n)
      else Except.ok (true, "Configuration valid")) := by
  have hts_ne : ts ≠ "" := ne_empty_of_isdigit ts hts
  have hts_strip : pyStrip ts = ts := pyStrip_eq_self_of_digits ts hts
  have hds_strip : pyStrip ds = ds := pyStrip_eq_self_of_digits ds hds
  have hds_lower : pyLower ds = ds := pyLower_eq_self_of_digits ds hds
  have hds_ne_auto : ds ≠ "auto" := ne_auto_of_isdigit ds hds
  constructor
  · simp only [validate]
    rw [hts_strip, hds_strip]
    rw [if_neg (by rintro ⟨h1, h2, h3⟩; rw [hts] at h3; exact Bool.noConfusion h3)]
    rw [if_neg (by rintro ⟨h1, h2, h3⟩; rw [hds] at h3; exact Bool.noConfusion h3)]
    rw [if_pos ⟨hts_ne, hts, hn⟩]
    rw [pyInt_of_digits ts hts]
    have hget : get_per_test_value ds =
        Except.ok ((natOfDigits ds.data : Nat) : Int) := by
      show (if pyLower (pyStrip ds) = "auto" then
          Except.ok ((default_per_test_duration : Nat) : Int)
        else pyInt (pyStrip ds)) = Except.ok ((natOfDigits ds.data : Nat) : Int)
      rw [hds_strip, hds_lower, if_neg hds_ne_auto, pyInt_of_digits ds hds]
    rw [hget]
  · simp only [validate]
    rw [hts_strip]
    rw [if_neg (by rintro ⟨h1, h2, h3⟩; rw [hts] at h3; exact Bool.noConfusion h3)]
    rw [if_neg (by decide :
      ¬(pyStrip "auto" ≠ "" ∧ pyLower (pyStrip "auto") ≠ "auto" ∧
        pyIsdigit (pyStrip "auto") = false))]
    rw [if_pos ⟨hts_ne, hts, hn⟩]
    rw [pyInt_of_digits ts hts]
    have hget : get_per_test_value "auto" =
        Except.ok (((120 : Nat) : Nat) : Int) := by rfl
    rw [hget]

/-- C4 witness at time limit 100, duration 50 (and the auto default),
three enabled units. -/
theorem validate_time_limit_threshold_witness :
    (validate "100" "50" 3 =
      if (natOfDigits ("100").data : Int) < (natOfDigits ("50").data : Int) * ((3 : Nat) : Int) then
        Except.ok (false, tooLowMsg (natOfDigits ("100").data)
          ((natOfDigits ("50").data : Int) * ((3 : Nat) : Int)) (natOfDigits ("50").data) 3)
      else Except.ok (true, "Configuration valid"))
  ∧ (validate "100" "auto" 3 =
      if (natOfDigits ("100").data : Int) < ((120 : Nat) : Int) * ((3 : Nat) : Int) then
        Except.ok (false, tooLowMsg (natOfDigits ("100").data)
          (((120 : Nat) : Int) * ((3 : Nat) : Int)) ((120 : Nat) : Int) 3)
      else Except.ok (true, "Configuration valid")) :=
  validate_time_limit_threshold "100" "50" 3 (by decide) (by decide) (by decide)

/-- C7 counterexample: on the line "x \n" the monitor invokes the
callback with "x" — the trailing space is stripped along with the
terminator — whereas stripping exactly the line terminator would give
"x ". -/
theorem monitor_strips_more_than_terminator :
    monitor_output ["x \n"] false = ["x"]
  ∧ stripLineTerminatorSpec ("x \n") = "x "
  ∧ ("x" : String) ≠ "x " :=
  ⟨rfl, by decide, by decide⟩

theorem monitor_output_eq_map (lines : List String) (ended : Bool)
    (h : ∀ l ∈ lines, l ≠ "") :
    monitor_output lines ended = lines.map pyRstrip := by
  induction lines with
  | nil => rfl
  | cons a t ih =>
      have ha : a ≠ "" := h a (List.mem_cons_self a t)
      have ht : ∀ l ∈ t, l ≠ "" := fun x hx => h x (List.mem_cons_of_mem a hx)
      calc monitor_output (a :: t) ended
          = pyRstrip a :: monitor_output t ended := by
            simp only [monitor_output, List.filterMap_cons, if_pos ha]
        _ = pyRstrip a :: t.map pyRstrip := by rw [ih ht]
        _ = (a :: t).map pyRstrip := (List.map_cons pyRstrip a t).symm

theorem rstripL_decomposition (l : List Char) :
    l = rstripL l ++ (l.reverse.takeWhile isPyWhitespaceChar).reverse
  ∧ ∀ c ∈ (l.reverse.takeWhile isPyWhitespaceChar).reverse,
      isPyWhitespaceChar c = true := by
  constructor
  · calc l = l.reverse.reverse := (List.reverse_reverse l).symm
      _ = (l.reverse.takeWhile isPyWhitespaceChar
            ++ l.reverse.dropWhile isPyWhitespaceChar).reverse := by
          rw [List.takeWhile_append_dropWhile]
      _ = (l.reverse.dropWhile isPyWhitespaceChar).reverse
            ++ (l.reverse.takeWhile isPyWhitespaceChar).reverse :=
          List.reverse_append _ _
      _ = rstripL l ++ (l.reverse.takeWhile isPyWhitespaceChar).reverse := rfl
  · intro c hc
    exact List.mem_takeWhile_imp (List.mem_reverse.mp hc)

/-- C7 amended: for every sequence of nonempty lines read from one pipe,
the monitor invokes the callback once per line in emission order with all
trailing whitespace — including the line terminator — stripped (every
character before the trailing whitespace run preserved), and a reader
that ended in a pipe-closed/I/O-error condition produces exactly the same
callback sequence as one that reached end-of-stream (the error is
silent). -/
theorem monitor_output_lines (lines : List String) (ended : Bool)
    (h : ∀ l ∈ lines, l ≠ "") :
    monitor_output lines ended = lines.map pyRstrip
  ∧ monitor_output lines ended = monitor_output lines false
  ∧ ∀ l : String, ∃ ws : List Char,
      l.data = (pyRstrip l).data ++ ws ∧ ∀ c ∈ ws, isPyWhitespaceChar c = true := by
  refine ⟨monitor_output_eq_map lines ended h, rfl, ?_⟩
  intro l
  exact ⟨(l.data.reverse.takeWhile isPyWhitespaceChar).reverse,
    (rstripL_decomposition l.data).1, (rstripL_decomposition l.data).2⟩

/-- C7 amended, witness on a two-line stream with an I/O-error ending. -/
theorem monitor_output_lines_witness :
    monitor_output ["abc\n", "x \n"] true = ["abc", "x"] := by
  have h := monitor_output_lines ["abc\n", "x \n"] true (by decide)
  rw [h.1]
  decide

/-- C9: in every state reachable by any sequence of controller operations
(start, stop, completion) under arbitrary environments, an idle state has
no process handle and no pid, and while running exactly one handle exists:
the process and the tracked pid are the same single spawned process. -/
theorem controller_handle_invariant (s : ControllerState) (h : Reachable s) :
    (s.is_running = false → s.process = none ∧ s.pid = none)
  ∧ (s.is_running = true → ∃ p, s.process = some p ∧ s.pid = some p) := by
  induction h with
  | init => exact ⟨fun _ => ⟨rfl, rfl⟩, fun hc => Bool.noConfusion hc⟩
  | step_start s cfg units env hr ih =>
      obtain ⟨present, spawn⟩ := env
      unfold start_test
      split
      · exact ih
      · split
        · exact ih
        · split
          · exact ih
          · cases spawn with
            | ok p => exact ⟨fun hc => Bool.noConfusion hc, fun _ => ⟨p, rfl, rfl⟩⟩
            | fileNotFound => exact ih
            | err msg => exact ih
  | step_stop s env hr ih =>
      unfold stop_test
      split
      · exact ih
      · cases env with
        | pid_vanished => exact ⟨fun _ => ⟨rfl, rfl⟩, fun hc => Bool.noConfusion hc⟩
        | term_ok => exact ⟨fun _ => ⟨rfl, rfl⟩, fun hc => Bool.noConfusion hc⟩
        | term_no_such_process =>
            exact ⟨fun _ => ⟨rfl, rfl⟩, fun hc => Bool.noConfusion hc⟩
        | term_error msg => exact ih
  | step_wait s w hr ih =>
      cases w with
      | ok rc => exact ⟨fun _ => ⟨rfl, rfl⟩, fun hc => Bool.noConfusion hc⟩
      | error e => exact ⟨fun _ => ⟨rfl, rfl⟩, fun hc => Bool.noConfusion hc⟩

/-- C9 witness: the invariant applied to the reachable initial state. -/
theorem controller_handle_invariant_witness :
    initialState.process = none ∧ initialState.pid = none :=
  (controller_handle_invariant initialState Reachable.init).1 rfl
